import Mathlib

/-!
Verification development for the distill-score scoring composition engine.

The Python sources are shallowly embedded:
* floats of the pipeline, profile and content-type layers become exact
  rationals (`ℚ`);
* the confidence estimator (`src/distill/confidence.py`) uses `math.log`,
  so it is embedded over the reals (`ℝ`) with `Real.log`;
* Python dicts become association lists or `String → Option ℚ` maps;
* the regex pattern libraries of the individual scorers and of the
  content-type detector are, as in the specification, treated as external
  collaborators: their match counts enter the embedding as explicit
  function parameters (`DetectEnv`, the `rest` continuation of each
  scorer), while every branch, threshold and arithmetic step of the
  engine itself is translated literally;
* the thread pool of `Pipeline.score_batch` is modelled by its
  deterministic sequential denotation in submission order, threading the
  (mutable) pipeline state through the items.
-/

namespace Distill

/-- Truth of Python's `not text or not text.strip()`: the text is empty or
consists of whitespace only. -/
def isBlank (text : String) : Bool :=
  text.toList.all Char.isWhitespace

/-- Number of whitespace-delimited words, as Python's `len(text.split())`
(used throughout `pipeline.py` and most scorers): the number of maximal
runs of non-whitespace characters. -/
def wordCount (text : String) : ℕ :=
  (text.toList.foldl
    (fun (acc : ℕ × Bool) c =>
      if c.isWhitespace then (acc.1, false)
      else (if acc.2 then acc else (acc.1 + 1, true)))
    (0, false)).1

/-- Number of maximal alphabetic runs, as `re.findall(r"\b[a-zA-Z]+\b", text)`
in `scorers/readability.py` line 94. -/
def alphaWordCount (text : String) : ℕ :=
  (text.toList.foldl
    (fun (acc : ℕ × Bool) c =>
      if c.isAlpha then (if acc.2 then acc else (acc.1 + 1, true))
      else (acc.1, false))
    (0, false)).1

/-- Metadata dict passed to scoring calls (`metadata: dict | None`);
only string-valued entries are interpreted by the engine (`url`). -/
abbrev Meta := List (String × String)

/-- Result from a single scorer (`scorer.py` `ScoreResult`); `details` and
`highlights` are diagnostic payloads that no claim mentions and are omitted. -/
structure ScoreResult where
  name : String
  score : ℚ
  explanation : String := ""
  ci_lower : Option ℚ := none
  ci_upper : Option ℚ := none
  deriving Repr, DecidableEq

/-- Python's builtin `min` on two rationals (returns the first argument on
ties, which is numerically irrelevant). -/
def minQ (a b : ℚ) : ℚ := if a ≤ b then a else b

/-- Python's builtin `max` on two rationals. -/
def maxQ (a b : ℚ) : ℚ := if b ≤ a then a else b

/-- Clamp a rational to the unit interval, as `max(0.0, min(1.0, x))`. -/
def clampQ (x : ℚ) : ℚ := maxQ 0 (minQ 1 x)

/-- Constructor of `ScoreResult` including the `__post_init__` clamping
(`scorer.py` lines 35-40). -/
def mkScoreResult (name : String) (score : ℚ) (explanation : String := "")
    (ci_lower : Option ℚ := none) (ci_upper : Option ℚ := none) : ScoreResult :=
  { name := name
    score := clampQ score
    explanation := explanation
    ci_lower := ci_lower.map clampQ
    ci_upper := ci_upper.map clampQ }

/-!
Short-text guard branches of the registered scorers.  Each scorer first
computes its word count and returns early on short input; the long-text
branch (pure regex accounting, external to the engine per the spec) is
abstracted as the continuation `rest`.
-/

/-- SubstanceScorer.score, `scorers/substance.py` lines 189-199: texts of
fewer than 20 whitespace words score 0.0 (not the neutral 0.5). -/
def substance_score (rest : String → Option Meta → ScoreResult)
    (text : String) (meta : Option Meta) : ScoreResult :=
  if wordCount text < 20 then
    mkScoreResult "substance" 0 "Too short to evaluate."
  else rest text meta

/-- EpistemicScorer.score, `scorers/epistemic.py` lines 132-141. -/
def epistemic_score (rest : String → Option Meta → ScoreResult)
    (text : String) (meta : Option Meta) : ScoreResult :=
  if wordCount text < 30 then
    mkScoreResult "epistemic" (1/2) "Too short to assess epistemic quality."
  else rest text meta

/-- ArgumentScorer.score, `scorers/argument.py` lines 157-166. -/
def argument_score (rest : String → Option Meta → ScoreResult)
    (text : String) (meta : Option Meta) : ScoreResult :=
  if wordCount text < 30 then
    mkScoreResult "argument" (1/2) "Too short to assess argument structure."
  else rest text meta

/-- ComplexityScorer.score, `scorers/complexity.py` lines 209-218. -/
def complexity_score (rest : String → Option Meta → ScoreResult)
    (text : String) (meta : Option Meta) : ScoreResult :=
  if wordCount text < 30 then
    mkScoreResult "complexity" (1/2) "Too short to assess complexity profile."
  else rest text meta

/-- OriginalityScorer.score, `scorers/originality.py` lines 150-159. -/
def originality_score (rest : String → Option Meta → ScoreResult)
    (text : String) (meta : Option Meta) : ScoreResult :=
  if wordCount text < 50 then
    mkScoreResult "originality" (1/2) "Too short to assess originality."
  else rest text meta

/-- ReadabilityScorer.score, `scorers/readability.py` lines 93-103; note its
word count is the count of alphabetic runs, not of whitespace tokens. -/
def readability_score (rest : String → Option Meta → ScoreResult)
    (text : String) (meta : Option Meta) : ScoreResult :=
  if alphaWordCount text < 20 then
    mkScoreResult "readability" (1/2) "Too short to assess readability."
  else rest text meta

/-- SourceAuthorityScorer.score, `scorers/source_authority.py` lines 339-348. -/
def source_authority_score (rest : String → Option Meta → ScoreResult)
    (text : String) (meta : Option Meta) : ScoreResult :=
  if wordCount text < 20 then
    mkScoreResult "source_authority" (1/2) "Too short to assess source authority."
  else rest text meta

/-!
Confidence estimator, `src/distill/confidence.py`.  Python floats and
`math.log` are embedded as exact reals with `Real.log`; the definitions
are therefore noncomputable, exactly where the source uses transcendental
float arithmetic.
-/

/-- Base half-width from text length (`confidence.py` lines 32-39):
0.15 at 50 words or fewer, 0.03 at 2000 or more, log-linear between. -/
noncomputable def baseHw (word_count : ℕ) : ℝ :=
  if word_count ≤ 50 then 0.15
  else if 2000 ≤ word_count then 0.03
  else
    let t := (Real.log word_count - Real.log 50) / (Real.log 2000 - Real.log 50)
    0.15 - t * (0.15 - 0.03)

/-- Signals per 100 words (`confidence.py` line 43). -/
noncomputable def signalsPer100 (word_count signal_count : ℕ) : ℝ :=
  if 0 < word_count then (signal_count : ℝ) * 100 / (word_count : ℝ) else 0

/-- Density factor (`confidence.py` lines 44-47): 1.0 at 5 or more signals
per 100 words, up to 2.0 as density approaches zero. -/
noncomputable def densityFactor (signals_per_100w : ℝ) : ℝ :=
  if 5 ≤ signals_per_100w then 1 else 2 - signals_per_100w / 5

/-- Type-diversity factor (`confidence.py` line 50). -/
noncomputable def typeFactor (signal_types : ℕ) : ℝ :=
  max 0.85 (1 - ((signal_types : ℝ) - 1) * 0.03)

/-- Clamp a real to the unit interval, as `max(0.0, min(1.0, x))`. -/
noncomputable def clampR (x : ℝ) : ℝ := max 0 (min 1 x)

/-- Half-width of the interval (`confidence.py` line 52):
`base_hw * density_factor * type_factor`. -/
noncomputable def halfWidth (word_count signal_count signal_types : ℕ) : ℝ :=
  baseHw word_count * densityFactor (signalsPer100 word_count signal_count) *
    typeFactor signal_types

/-- compute_confidence_interval, `confidence.py` lines 13-63. -/
noncomputable def compute_confidence_interval (score : ℝ)
    (word_count signal_count : ℕ) (signal_types : ℕ := 1) : ℝ × ℝ :=
  let half_width := halfWidth word_count signal_count signal_types
  (clampR (score - half_width), clampR (score + half_width))

/-- Width of a returned interval. -/
noncomputable def intervalWidth (p : ℝ × ℝ) : ℝ := p.2 - p.1

/-!
Content-type detector, `src/distill/content_type.py`.  The regex pattern
libraries and `urlparse` are the external collaborators named in the
spec; their outcomes enter as a `DetectEnv`: `hits text l` is the total
number of matches of category `l`'s patterns in `text` (lines 181-187),
and `urlBoosts url l` is the boost computed by `_url_signals` (lines
112-148, each value 0.0 or 0.3).
-/

/-- Content categories scored by the detector, in the fixed iteration
order `technical`, `news`, `opinion` of `detect_content_type`. -/
inductive Label where
  | technical
  | news
  | opinion
  deriving Repr, DecidableEq

/-- Profile name of a label. -/
def Label.profileName : Label → String
  | .technical => "technical"
  | .news => "news"
  | .opinion => "opinion"

/-- Detected content type (`content_type.py` `ContentType`); the diagnostic
`signals` dict is omitted. -/
structure ContentType where
  name : String
  confidence : ℚ
  deriving Repr, DecidableEq

/-- Environment abstracting the regex collaborators of the detector. -/
structure DetectEnv where
  hits : String → Label → ℕ
  urlBoosts : String → Label → ℚ

/-- URL boosts actually used by `detect_content_type` (lines 169-172):
present only when the metadata dict and its `url` entry are truthy. -/
def urlBoostOf (env : DetectEnv) (meta : Option Meta) (l : Label) : ℚ :=
  match meta with
  | none => 0
  | some m =>
    if m ≠ [] then
      match m.lookup "url" with
      | some u => if u ≠ "" then env.urlBoosts u l else 0
      | none => 0
    else 0

/-- Text-only signal density of one category (`content_type.py` line 190):
hits per 100 words, capped at 1.0. -/
def rawDensity (env : DetectEnv) (text : String) (l : Label) : ℚ :=
  if 0 < wordCount text then
    minQ ((env.hits text l : ℚ) / ((wordCount text : ℚ) / 100)) 1
  else 0

/-- Density after the URL boost (`content_type.py` lines 191-193): the boost
is added only when the text itself already has nonzero density and the
boost is nonzero, and the sum is re-capped at 1.0. -/
def effDensity (env : DetectEnv) (text : String) (meta : Option Meta)
    (l : Label) : ℚ :=
  let raw := rawDensity env text l
  let boost := urlBoostOf env meta l
  if 0 < raw ∧ 0 < boost then minQ (raw + boost) 1 else raw

/-- Winning category (`content_type.py` line 197): Python's `max` over the
insertion-ordered dict returns the first key attaining the maximum, so
ties resolve by the fixed priority technical > news > opinion. -/
def bestLabel (d : Label → ℚ) : Label :=
  [Label.news, Label.opinion].foldl (fun acc l => if d acc < d l then l else acc)
    Label.technical

/-- detect_content_type, `content_type.py` lines 151-203. -/
def detect_content_type (env : DetectEnv) (text : String)
    (meta : Option Meta) : ContentType :=
  if isBlank text then { name := "default", confidence := 0 }
  else if wordCount text = 0 then { name := "default", confidence := 0 }
  else
    let d := effDensity env text meta
    let best := bestLabel d
    if d best < 15 / 100 then { name := "default", confidence := d best }
    else { name := best.profileName, confidence := d best }

/-!
Profile registry, `src/distill/profiles.py`: the four built-in profiles
registered at import time (lines 44-66), viewed as weight maps.
-/

/-- Weight map of a built-in registered profile (`profiles.py` lines 44-66);
`none` for a scorer name the profile does not override and for unknown
profile names. -/
def profileWeights : String → String → Option ℚ
  | "default", "substance" => some (3/2)
  | "default", "epistemic" => some 1
  | "default", "readability" => some (3/4)
  | "technical", "substance" => some 2
  | "technical", "epistemic" => some (1/2)
  | "technical", "readability" => some 1
  | "news", "substance" => some 1
  | "news", "epistemic" => some 2
  | "news", "readability" => some 1
  | "opinion", "substance" => some 1
  | "opinion", "epistemic" => some (3/2)
  | "opinion", "readability" => some 1
  | _, _ => none

/-!
Pipeline, `src/distill/pipeline.py`.  A configured scorer instance is a
`ScorerSpec`: its registered name, its class default weight, and its
`score` method as a function.  The mutable fields of the Python object
(`_weight_overrides`, `_detected_content_type`) are threaded explicitly:
`Pipeline.score` returns the updated pipeline next to the report.
-/

/-- One configured scorer: registry name, class default weight, and the
`score(text, metadata)` method. -/
structure ScorerSpec where
  name : String
  weight : ℚ
  run : String → Option Meta → ScoreResult

/-- Composite quality report (`pipeline.py` `QualityReport`); paragraph
decomposition is off in every operation a claim mentions and is omitted. -/
structure QualityReport where
  overall_score : ℚ
  scores : List ScoreResult := []
  text_length : ℕ := 0
  word_count : ℕ := 0
  deriving Repr, DecidableEq

/-- QualityReport.grade, `pipeline.py` lines 47-59. -/
def QualityReport.grade (r : QualityReport) : String :=
  if r.overall_score ≥ 8/10 then "A"
  else if r.overall_score ≥ 65/100 then "B"
  else if r.overall_score ≥ 5/10 then "C"
  else if r.overall_score ≥ 35/100 then "D"
  else "F"

/-- Grade-to-label table of QualityReport.label, `pipeline.py` lines 62-70. -/
def gradeLabels : List (String × String) :=
  [("A", "High substance"), ("B", "Solid content"), ("C", "Average"),
   ("D", "Thin content"), ("F", "Low substance")]

/-- QualityReport.label, `pipeline.py` lines 61-70 (the dict lookup always
succeeds because `grade` only returns the five letters). -/
def QualityReport.label (r : QualityReport) : String :=
  (gradeLabels.lookup r.grade).getD ""

/-- Winner marker of comparisons. -/
inductive Winner where
  | A
  | B
  | tie
  deriving Repr, DecidableEq

/-- Tie threshold `_TIE_THRESHOLD = 0.01`, `pipeline.py` line 103. -/
def tieThreshold : ℚ := 1/100

/-- Score delta for a single dimension (`pipeline.py` `DimensionDelta`). -/
structure DimensionDelta where
  name : String
  score_a : ℚ
  score_b : ℚ
  delta : ℚ
  winner : Winner
  deriving Repr, DecidableEq

/-- Result of comparing two texts (`pipeline.py` `ComparisonResult`). -/
structure ComparisonResult where
  label_a : String
  label_b : String
  report_a : QualityReport
  report_b : QualityReport
  winner : Winner
  overall_delta : ℚ
  dimension_deltas : List DimensionDelta
  deriving Repr, DecidableEq

/-- Pipeline state: configured scorers plus the mutable `_weight_overrides`,
`_auto_profile` and `_detected_content_type` attributes. -/
structure Pipeline where
  scorers : List ScorerSpec
  weightOverrides : String → Option ℚ
  autoProfile : Bool
  detected : Option ContentType := none

/-- Pipeline.__init__, `pipeline.py` lines 160-185, for a known profile
name: explicit weights are laid over the profile's weights, and
`_auto_profile` is set only when no explicit profile was supplied. -/
def mkPipeline (scorers : List ScorerSpec) (weights : String → Option ℚ)
    (profile : Option String) (auto_profile : Bool) : Pipeline :=
  let profW : String → Option ℚ :=
    match profile with
    | some nm => profileWeights nm
    | none => fun _ => none
  { scorers := scorers
    weightOverrides := fun k => (weights k).orElse (fun _ => profW k)
    autoProfile := auto_profile && profile.isNone
    detected := none }

/-- Pipeline._apply_auto_profile, `pipeline.py` lines 192-202: record the
detection and, when it is not "default", install the detected profile's
weights beneath the existing overrides. -/
def applyAutoProfile (env : DetectEnv) (p : Pipeline) (text : String)
    (meta : Option Meta) : Pipeline :=
  let ct := detect_content_type env text meta
  if ct.name ≠ "default" then
    { p with
      detected := some ct
      weightOverrides := fun k => (p.weightOverrides k).orElse
        (fun _ => profileWeights ct.name k) }
  else { p with detected := some ct }

/-- Pipeline state after the optional auto-profile step of a `score` call
(`pipeline.py` lines 214-215). -/
def resolvePipeline (env : DetectEnv) (p : Pipeline) (text : String)
    (meta : Option Meta) : Pipeline :=
  if p.autoProfile then applyAutoProfile env p text meta else p

/-- Resolved weight of a scorer (`pipeline.py` line 225):
`self._weight_overrides.get(scorer.name, scorer.weight)`. -/
def resolvedWeight (p : Pipeline) (s : ScorerSpec) : ℚ :=
  (p.weightOverrides s.name).getD s.weight

/-- The zero report returned for empty or whitespace-only text
(`pipeline.py` line 212). -/
def zeroReport : QualityReport :=
  { overall_score := 0, scores := [], text_length := 0, word_count := 0 }

/-- Pipeline.score, `pipeline.py` lines 204-241 (with
`include_paragraphs=False`, its default, which is how `score_batch` and
`compare` call it); returns the updated pipeline state next to the report. -/
def Pipeline.score (env : DetectEnv) (p : Pipeline) (text : String)
    (meta : Option Meta) : Pipeline × QualityReport :=
  if isBlank text then (p, zeroReport)
  else
    let p1 := resolvePipeline env p text meta
    let results := p1.scorers.map (fun s => s.run text meta)
    let weighted_sum :=
      (p1.scorers.map (fun s => (s.run text meta).score * resolvedWeight p1 s)).sum
    let total_weight := (p1.scorers.map (fun s => resolvedWeight p1 s)).sum
    let overall := if 0 < total_weight then weighted_sum / total_weight else 0
    (p1,
      { overall_score := overall
        scores := results
        text_length := text.length
        word_count := wordCount text })

/-- Per-item metadata dispatch of `score_batch` (`pipeline.py` lines
298-301): a list is indexed (missing indices give `None`), anything else
is shared by all items. -/
inductive BatchMeta where
  | shared (m : Option Meta)
  | perItem (ms : List (Option Meta))

/-- Metadata passed to item `i` of a batch. -/
def BatchMeta.at : BatchMeta → ℕ → Option Meta
  | .shared m, _ => m
  | .perItem ms, i => ms.getD i none

/-- Pipeline.score_batch, `pipeline.py` lines 280-311, in its sequential
denotation: each item is scored by `Pipeline.score` with the shared
pipeline state threaded in submission order, and the labelled reports are
returned in the original input order. -/
def Pipeline.score_batch (env : DetectEnv) (p : Pipeline)
    (texts : List (String × String)) (meta : BatchMeta) :
    Pipeline × List (String × QualityReport) :=
  texts.enum.foldl
    (fun acc it =>
      ((Pipeline.score env acc.1 it.2.2 (meta.at it.1)).1,
        acc.2 ++ [(it.2.1, (Pipeline.score env acc.1 it.2.2 (meta.at it.1)).2)]))
    (p, [])

/-- Winner at a given delta (`pipeline.py` lines 340-345 and 352-358). -/
def winnerOf (delta : ℚ) : Winner :=
  if |delta| < tieThreshold then Winner.tie
  else if 0 < delta then Winner.A
  else Winner.B

/-- Last score recorded for a dimension name in a report, mirroring the
dict comprehension `{r.name: r.score for r in report_b.scores}` of
`pipeline.py` line 348 (later duplicates overwrite earlier ones) combined
with `.get(name, 0.0)` of line 351. -/
def scoreOfDim (r : QualityReport) (name : String) : ℚ :=
  ((r.scores.reverse.find? (fun s => s.name = name)).map (·.score)).getD 0

/-- Pipeline.compare, `pipeline.py` lines 313-375: two sequential `score`
calls on the shared state, overall winner, and per-dimension deltas
iterating the dimensions of report A. -/
def Pipeline.compare (env : DetectEnv) (p : Pipeline)
    (text_a text_b : String) (label_a : String := "A") (label_b : String := "B")
    (meta_a : Option Meta := none) (meta_b : Option Meta := none) :
    Pipeline × ComparisonResult :=
  let step_a := Pipeline.score env p text_a meta_a
  let p1 := step_a.1
  let report_a := step_a.2
  let step_b := Pipeline.score env p1 text_b meta_b
  let p2 := step_b.1
  let report_b := step_b.2
  let overall_delta := report_a.overall_score - report_b.overall_score
  let deltas := report_a.scores.map (fun ra =>
    let sb := scoreOfDim report_b ra.name
    { name := ra.name
      score_a := ra.score
      score_b := sb
      delta := ra.score - sb
      winner := winnerOf (ra.score - sb) : DimensionDelta })
  (p2,
    { label_a := label_a
      label_b := label_b
      report_a := report_a
      report_b := report_b
      winner := winnerOf overall_delta
      overall_delta := overall_delta
      dimension_deltas := deltas })

/-!
Concrete scorers, pipelines and detection environments used by the
closed-form instances below.
-/

/-- Environment and pipelines for the degenerate-input instance. -/
def envW : DetectEnv := { hits := fun _ _ => 0, urlBoosts := fun _ _ => 0 }

def pW : Pipeline :=
  { scorers := [], weightOverrides := fun _ => none, autoProfile := false }

/-- Scorer and pipeline exhibiting the C4 counterexample: a single
configured scorer whose caller-supplied weight override is 0. -/
def sC4 : ScorerSpec :=
  { name := "s", weight := 3/2, run := fun _ _ => mkScoreResult "s" (1/2) "" }

def pC4 : Pipeline :=
  { scorers := [sC4]
    weightOverrides := fun k => if k = "s" then some 0 else none
    autoProfile := false }

def envC6 : DetectEnv :=
  { hits := fun _ _ => 0, urlBoosts := fun _ _ => 3/10 }

def sC7 : ScorerSpec :=
  { name := "s", weight := 1
    run := fun _ _ => { name := "s", score := 1/2 } }

def pC7 : Pipeline :=
  { scorers := [sC7], weightOverrides := fun _ => none, autoProfile := false }

def dC7 : DimensionDelta :=
  { name := "s", score_a := 1/2, score_b := 0, delta := 1/2, winner := Winner.A }

/-- Detection environment whose text-signal collaborator reports one
technical hit on the four-word text "tech tech tech tech" and no hits
elsewhere. -/
def envT : DetectEnv :=
  { hits := fun t l =>
      match l with
      | Label.technical => if t = "tech tech tech tech" then 1 else 0
      | Label.news => 0
      | Label.opinion => 0
    urlBoosts := fun _ _ => 0 }

def pC10 : Pipeline :=
  { scorers := []
    weightOverrides := fun k => if k = "epistemic" then some 9 else none
    autoProfile := true }

/-- Two constant scorers named after registered dimensions, and a fresh
auto-profile pipeline over them, used to exhibit the batch divergence. -/
def subC2 : ScorerSpec :=
  { name := "substance", weight := 3/2
    run := fun _ _ => { name := "substance", score := 1 } }

def epiC2 : ScorerSpec :=
  { name := "epistemic", weight := 1
    run := fun _ _ => { name := "epistemic", score := 0 } }

def pC2 : Pipeline :=
  { scorers := [subC2, epiC2], weightOverrides := fun _ => none, autoProfile := true }

/-- Pipeline state after the first batch item: the technical profile
weights are installed beneath the (empty) explicit overrides. -/
def pTechC2 : Pipeline :=
  { scorers := [subC2, epiC2]
    weightOverrides := fun k =>
      (pC2.weightOverrides k).orElse (fun _ => profileWeights "technical" k)
    autoProfile := true
    detected := some { name := "technical", confidence := 1 } }

/-- Pipeline states after detection falls back to "default" on the plain
text: only the recorded detection changes. -/
def pTechC2b : Pipeline :=
  { scorers := pTechC2.scorers
    weightOverrides := pTechC2.weightOverrides
    autoProfile := pTechC2.autoProfile
    detected := some { name := "default", confidence := 0 } }

def pC2b : Pipeline :=
  { scorers := pC2.scorers
    weightOverrides := pC2.weightOverrides
    autoProfile := pC2.autoProfile
    detected := some { name := "default", confidence := 0 } }

def pC2w : Pipeline :=
  { scorers := [subC2, epiC2], weightOverrides := fun _ => none, autoProfile := false }

/-- Concrete stand-in for the substance long-text branch (never reached on
short input) with a nonzero score, making the guard visible. -/
def restC1 : String → Option Meta → ScoreResult :=
  fun _ _ => mkScoreResult "substance" (9/10) ""

/-- Single-scorer pipeline with no weight overrides, for the positive
single-scorer identity instance. -/
def sC4w : ScorerSpec :=
  { name := "s", weight := 3/2, run := fun _ _ => mkScoreResult "s" (1/2) "" }

def pC4w : Pipeline :=
  { scorers := [sC4w], weightOverrides := fun _ => none, autoProfile := false }

/-!
Helper lemmas about the pipeline state.
-/

/-- The embedded Python `min` agrees with the lattice operation. -/
theorem minQ_eq_min (a b : ℚ) : minQ a b = min a b := by
  unfold minQ
  rw [min_def]

theorem maxQ_eq_max (a b : ℚ) : maxQ a b = max a b := by
  unfold maxQ
  rw [max_def]
  rcases le_total a b with h | h
  · rcases eq_or_lt_of_le h with rfl | hlt
    · simp
    · rw [if_pos h, if_neg (not_le.mpr hlt)]
  · rw [if_pos h]
    rcases eq_or_lt_of_le h with rfl | hlt
    · simp
    · rw [if_neg (not_le.mpr hlt)]


/-- Neither the auto-profile step nor a plain call changes the configured
scorer list. -/
theorem resolvePipeline_scorers (env : DetectEnv) (p : Pipeline) (text : String)
    (meta : Option Meta) : (resolvePipeline env p text meta).scorers = p.scorers := by
  unfold resolvePipeline applyAutoProfile
  split
  · dsimp only
    split <;> rfl
  · rfl

/-- The auto-profile step does not change the `autoProfile` flag. -/
theorem resolvePipeline_autoProfile (env : DetectEnv) (p : Pipeline)
    (text : String) (meta : Option Meta) :
    (resolvePipeline env p text meta).autoProfile = p.autoProfile := by
  unfold resolvePipeline applyAutoProfile
  split
  · dsimp only
    split <;> rfl
  · rfl

/-- With auto-profile disabled, a `score` call leaves the pipeline state
untouched. -/
theorem score_state_of_not_auto (env : DetectEnv) (p : Pipeline) (text : String)
    (meta : Option Meta) (h : p.autoProfile = false) :
    (Pipeline.score env p text meta).1 = p := by
  unfold Pipeline.score resolvePipeline
  split
  · rfl
  · simp [h]

/-- C5: Grade is a pure, total function of overall_score with the exact
fixed thresholds: at least 0.80 gives "A" ("High substance"), at least
0.65 gives "B" ("Solid content"), at least 0.50 gives "C" ("Average"),
at least 0.35 gives "D" ("Thin content"), and anything lower gives "F"
("Low substance"); the boundaries behave exactly as stated (0.80 is "A",
0.79999 is "B"), so every score maps to exactly one grade. -/
theorem grade_thresholds (r : QualityReport) :
    (r.grade = "A" ↔ 8/10 ≤ r.overall_score)
  ∧ (r.grade = "B" ↔ 65/100 ≤ r.overall_score ∧ r.overall_score < 8/10)
  ∧ (r.grade = "C" ↔ 5/10 ≤ r.overall_score ∧ r.overall_score < 65/100)
  ∧ (r.grade = "D" ↔ 35/100 ≤ r.overall_score ∧ r.overall_score < 5/10)
  ∧ (r.grade = "F" ↔ r.overall_score < 35/100)
  ∧ (r.grade = "A" → r.label = "High substance")
  ∧ (r.grade = "B" → r.label = "Solid content")
  ∧ (r.grade = "C" → r.label = "Average")
  ∧ (r.grade = "D" → r.label = "Thin content")
  ∧ (r.grade = "F" → r.label = "Low substance")
  ∧ QualityReport.grade { overall_score := 8/10 } = "A"
  ∧ QualityReport.grade { overall_score := 79999/100000 } = "B" := by
  by_cases h1 : r.overall_score ≥ 8/10
  · have hg : r.grade = "A" := by unfold QualityReport.grade; rw [if_pos h1]
    refine ⟨?_, ?_, ?_, ?_, ?_, ?_, ?_, ?_, ?_, ?_, by norm_num [QualityReport.grade],
      by norm_num [QualityReport.grade]⟩ <;>
      simp_all [QualityReport.label, gradeLabels, List.lookup] <;> intros <;> linarith
  · by_cases h2 : r.overall_score ≥ 65/100
    · have hg : r.grade = "B" := by
        unfold QualityReport.grade; rw [if_neg h1, if_pos h2]
      refine ⟨?_, ?_, ?_, ?_, ?_, ?_, ?_, ?_, ?_, ?_, by norm_num [QualityReport.grade],
        by norm_num [QualityReport.grade]⟩ <;>
        simp_all [QualityReport.label, gradeLabels, List.lookup, not_le] <;> intros <;> linarith
    · by_cases h3 : r.overall_score ≥ 5/10
      · have hg : r.grade = "C" := by
          unfold QualityReport.grade; rw [if_neg h1, if_neg h2, if_pos h3]
        refine ⟨?_, ?_, ?_, ?_, ?_, ?_, ?_, ?_, ?_, ?_, by norm_num [QualityReport.grade],
          by norm_num [QualityReport.grade]⟩ <;>
          simp_all [QualityReport.label, gradeLabels, List.lookup, not_le] <;> intros <;> linarith
      · by_cases h4 : r.overall_score ≥ 35/100
        · have hg : r.grade = "D" := by
            unfold QualityReport.grade; rw [if_neg h1, if_neg h2, if_neg h3, if_pos h4]
          refine ⟨?_, ?_, ?_, ?_, ?_, ?_, ?_, ?_, ?_, ?_, by norm_num [QualityReport.grade],
            by norm_num [QualityReport.grade]⟩ <;>
            simp_all [QualityReport.label, gradeLabels, List.lookup, not_le] <;> intros <;> linarith
        · have hg : r.grade = "F" := by
            unfold QualityReport.grade; rw [if_neg h1, if_neg h2, if_neg h3, if_neg h4]
          refine ⟨?_, ?_, ?_, ?_, ?_, ?_, ?_, ?_, ?_, ?_, by norm_num [QualityReport.grade],
            by norm_num [QualityReport.grade]⟩ <;>
            simp_all [QualityReport.label, gradeLabels, List.lookup, not_le] <;> intros <;> linarith

theorem grade_thresholds_witness :
    QualityReport.grade { overall_score := 8/10 } = "A"
  ∧ QualityReport.label { overall_score := 8/10 } = "High substance"
  ∧ QualityReport.grade { overall_score := 79999/100000 } = "B"
  ∧ QualityReport.label { overall_score := 79999/100000 } = "Solid content" := by
  have hA := grade_thresholds { overall_score := 8/10 }
  have hB := grade_thresholds { overall_score := 79999/100000 }
  have hgA : QualityReport.grade { overall_score := 8/10 } = "A" :=
    hA.1.mpr (by norm_num)
  have hgB : QualityReport.grade { overall_score := 79999/100000 } = "B" :=
    hB.2.1.mpr (by norm_num)
  exact ⟨hgA, hA.2.2.2.2.2.1 hgA, hgB, hB.2.2.2.2.2.2.1 hgB⟩

/-- C9: Scoring an empty or whitespace-only text returns the zero report
(overall_score 0, word_count 0, text_length 0) immediately, leaves the
pipeline state untouched, and does not depend on (hence does not invoke)
the configured scorers. -/
theorem score_empty_text (env : DetectEnv) (p : Pipeline) (text : String)
    (meta : Option Meta) (h : isBlank text = true) :
    Pipeline.score env p text meta = (p, zeroReport)
  ∧ ∀ l : List ScorerSpec,
      (Pipeline.score env { p with scorers := l } text meta).2 = zeroReport := by
  constructor
  · unfold Pipeline.score
    rw [if_pos h]
  · intro l
    unfold Pipeline.score
    rw [if_pos h]

theorem score_empty_text_witness :
    isBlank "  " = true
  ∧ (Pipeline.score envW pW "  " none = (pW, zeroReport)
      ∧ ∀ l : List ScorerSpec,
          (Pipeline.score envW { pW with scorers := l } "  " none).2 = zeroReport) :=
  ⟨by decide, score_empty_text envW pW "  " none (by decide)⟩

/-- C1 counterexample: the substance scorer does not return the neutral 0.5
on short text; on a 2-word text (below its 20-word threshold) it returns
score 0.0, whatever the long-text branch would compute. -/
theorem short_text_substance_counterexample :
    wordCount "hello world" < 20
  ∧ (substance_score restC1 "hello world" none).score = 0
  ∧ (0 : ℚ) ≠ 1/2 := by
  refine ⟨by decide, ?_, by norm_num⟩
  unfold substance_score
  rw [if_pos (by decide)]
  decide

/-- C1 amended: on text below the scorer's own minimum-length threshold,
every registered scorer except substance returns the neutral 0.5 with an
explanation noting insufficient length and does not raise; the substance
scorer likewise returns without error but with score 0.0 and the
explanation "Too short to evaluate.". -/
theorem short_text_neutral (r₁ r₂ r₃ r₄ r₅ r₆ r₇ : String → Option Meta → ScoreResult)
    (t : String) (m : Option Meta)
    (h20 : wordCount t < 20) (h30 : wordCount t < 30) (h50 : wordCount t < 50)
    (ha : alphaWordCount t < 20) :
    substance_score r₁ t m = mkScoreResult "substance" 0 "Too short to evaluate."
  ∧ epistemic_score r₂ t m
      = mkScoreResult "epistemic" (1/2) "Too short to assess epistemic quality."
  ∧ argument_score r₃ t m
      = mkScoreResult "argument" (1/2) "Too short to assess argument structure."
  ∧ complexity_score r₄ t m
      = mkScoreResult "complexity" (1/2) "Too short to assess complexity profile."
  ∧ originality_score r₅ t m
      = mkScoreResult "originality" (1/2) "Too short to assess originality."
  ∧ readability_score r₆ t m
      = mkScoreResult "readability" (1/2) "Too short to assess readability."
  ∧ source_authority_score r₇ t m
      = mkScoreResult "source_authority" (1/2) "Too short to assess source authority." := by
  unfold substance_score epistemic_score argument_score complexity_score
    originality_score readability_score source_authority_score
  refine ⟨?_, ?_, ?_, ?_, ?_, ?_, ?_⟩ <;> rw [if_pos (by omega)]

theorem short_text_neutral_witness :
    (wordCount "hi there" < 20 ∧ wordCount "hi there" < 30
      ∧ wordCount "hi there" < 50 ∧ alphaWordCount "hi there" < 20)
  ∧ (epistemic_score (fun _ _ => mkScoreResult "epistemic" 0 "") "hi there" none
      = mkScoreResult "epistemic" (1/2) "Too short to assess epistemic quality.") :=
  ⟨⟨by decide, by decide, by decide, by decide⟩,
    (short_text_neutral (fun _ _ => mkScoreResult "substance" 0 "")
      (fun _ _ => mkScoreResult "epistemic" 0 "")
      (fun _ _ => mkScoreResult "argument" 0 "")
      (fun _ _ => mkScoreResult "complexity" 0 "")
      (fun _ _ => mkScoreResult "originality" 0 "")
      (fun _ _ => mkScoreResult "readability" 0 "")
      (fun _ _ => mkScoreResult "source_authority" 0 "")
      "hi there" none (by decide) (by decide) (by decide) (by decide)).2.1⟩

/-- C4 amended: for a pipeline configured with exactly one scorer, on
non-blank text, if the weight resolved for that scorer (after the
optional auto-profile step) is positive, the report's overall_score
equals the scorer's own score for the text. -/
theorem single_scorer_identity (env : DetectEnv) (p : Pipeline) (text : String)
    (meta : Option Meta) (s : ScorerSpec)
    (hs : p.scorers = [s])
    (ht : isBlank text = false)
    (hw : 0 < resolvedWeight (resolvePipeline env p text meta) s) :
    (Pipeline.score env p text meta).2.overall_score = (s.run text meta).score := by
  unfold Pipeline.score
  rw [if_neg (by simp [ht])]
  have hsc : (resolvePipeline env p text meta).scorers = [s] := by
    rw [resolvePipeline_scorers, hs]
  simp only [hsc, List.map_cons, List.map_nil, List.sum_cons, List.sum_nil, add_zero]
  rw [if_pos hw]
  field_simp

/-- C4 counterexample: a pipeline configured with exactly one scorer whose
caller-supplied weight override is 0 returns overall_score 0.0 on a
non-blank text even though the scorer's score is 0.5. -/
theorem single_scorer_identity_counterexample :
    pC4.scorers = [sC4]
  ∧ isBlank "hello world there" = false
  ∧ (sC4.run "hello world there" none).score = 1/2
  ∧ (Pipeline.score envW pC4 "hello world there" none).2.overall_score = 0
  ∧ (0 : ℚ) ≠ 1/2 := by
  refine ⟨rfl, by decide, ?_, ?_, by norm_num⟩
  · norm_num [sC4, mkScoreResult, clampQ, minQ, maxQ]
  · have hb : isBlank "hello world there" = false := by decide
    unfold Pipeline.score
    rw [if_neg (by simp [hb])]
    norm_num [resolvePipeline, resolvedWeight, pC4, sC4]

theorem single_scorer_identity_witness :
    (pC4w.scorers = [sC4w]
      ∧ isBlank "hello world again" = false
      ∧ 0 < resolvedWeight (resolvePipeline envW pC4w "hello world again" none) sC4w)
  ∧ (Pipeline.score envW pC4w "hello world again" none).2.overall_score
      = (sC4w.run "hello world again" none).score := by
  have hw : 0 < resolvedWeight (resolvePipeline envW pC4w "hello world again" none)
      sC4w := by
    have hr : resolvedWeight (resolvePipeline envW pC4w "hello world again" none)
        sC4w = 3/2 := rfl
    rw [hr]
    norm_num
  exact ⟨⟨rfl, by decide, hw⟩,
    single_scorer_identity envW pC4w "hello world again" none sC4w rfl (by decide) hw⟩

/-- C6: detect_content_type applies a category's URL-derived boost only when
that category already has nonzero density from the text itself; on text
with zero signal matches for every category, a matching URL alone never
selects a category and the result is "default" (confidence 0). -/
theorem url_alone_never_wins (env : DetectEnv) (text : String)
    (meta : Option Meta) (h : ∀ l, env.hits text l = 0) :
    (∀ l, effDensity env text meta l = rawDensity env text l)
  ∧ detect_content_type env text meta = { name := "default", confidence := 0 } := by
  have hraw : ∀ l, rawDensity env text l = 0 := by
    intro l
    unfold rawDensity
    split
    · rw [h l]
      norm_num [minQ]
    · rfl
  have heff : ∀ l, effDensity env text meta l = rawDensity env text l := by
    intro l
    unfold effDensity
    rw [if_neg]
    rw [hraw l]
    simp
  refine ⟨heff, ?_⟩
  have heff0 : ∀ l, effDensity env text meta l = 0 := fun l => (heff l).trans (hraw l)
  unfold detect_content_type
  split
  · rfl
  · split
    · rfl
    · dsimp only
      rw [if_pos (by rw [heff0]; norm_num), heff0]

theorem url_alone_never_wins_witness :
    (∀ l, envC6.hits "hello world" l = 0)
  ∧ detect_content_type envC6 "hello world"
      (some [("url", "https://github.com/x")])
      = { name := "default", confidence := 0 } :=
  ⟨fun _ => rfl,
    (url_alone_never_wins envC6 "hello world"
      (some [("url", "https://github.com/x")]) (fun _ => rfl)).2⟩

/-- C7: in Pipeline.compare the per-dimension deltas iterate exactly the
dimensions of report A (same names, in order), and a dimension absent
from report B's results is treated as score 0.0: its delta is score_a
minus 0. -/
theorem compare_missing_dimension (env : DetectEnv) (p : Pipeline)
    (ta tb : String) (ma mb : Option Meta) (d : DimensionDelta)
    (hd : d ∈ (Pipeline.compare env p ta tb "A" "B" ma mb).2.dimension_deltas)
    (habs : ∀ r ∈ (Pipeline.compare env p ta tb "A" "B" ma mb).2.report_b.scores,
      r.name ≠ d.name) :
    d.score_b = 0 ∧ d.delta = d.score_a
  ∧ (Pipeline.compare env p ta tb "A" "B" ma mb).2.dimension_deltas.map
      (fun x => x.name)
    = (Pipeline.compare env p ta tb "A" "B" ma mb).2.report_a.scores.map
        (fun x => x.name) := by
  unfold Pipeline.compare at hd habs ⊢
  dsimp only at hd habs ⊢
  obtain ⟨ra, hra, hdeq⟩ := List.mem_map.mp hd
  have hname : d.name = ra.name := by rw [← hdeq]
  have hfind :
      ((Pipeline.score env (Pipeline.score env p ta ma).1 tb mb).2.scores.reverse.find?
        (fun s => s.name = ra.name)) = none := by
    apply List.find?_eq_none.mpr
    intro x hx
    simp only [decide_eq_true_eq]
    exact fun hcontra =>
      habs x (List.mem_reverse.mp hx) (by rw [hname, hcontra])
  have hsb : scoreOfDim (Pipeline.score env (Pipeline.score env p ta ma).1 tb mb).2
      ra.name = 0 := by
    unfold scoreOfDim
    rw [hfind]
    rfl
  refine ⟨?_, ?_, ?_⟩
  · rw [← hdeq]
    exact hsb
  · rw [← hdeq]
    dsimp only
    rw [hsb, sub_zero]
  · rw [List.map_map]
    rfl

theorem compare_missing_dimension_witness :
    dC7 ∈ (Pipeline.compare envW pC7 "one two three" "" "A" "B" none none).2.dimension_deltas
  ∧ dC7.score_b = 0 ∧ dC7.delta = dC7.score_a := by
  have hb : isBlank "one two three" = false := by decide
  have hscore_a : (Pipeline.score envW pC7 "one two three" none).2
      = { overall_score := 1/2
          scores := [{ name := "s", score := 1/2 }]
          text_length := 13
          word_count := 3 } := by
    unfold Pipeline.score
    rw [if_neg (by simp [hb])]
    norm_num [resolvePipeline, resolvedWeight, pC7, sC7]
    exact ⟨by decide, by decide⟩
  have hscore_b : (Pipeline.score envW pC7 "" none).2 = zeroReport := by
    unfold Pipeline.score
    rw [if_pos (by decide)]
  have hstate : (Pipeline.score envW pC7 "one two three" none).1 = pC7 :=
    score_state_of_not_auto envW pC7 "one two three" none rfl
  have hmem :
      dC7 ∈ (Pipeline.compare envW pC7 "one two three" "" "A" "B" none none).2.dimension_deltas := by
    unfold Pipeline.compare
    dsimp only
    rw [hstate, hscore_a, hscore_b]
    unfold scoreOfDim zeroReport
    norm_num [dC7, winnerOf, tieThreshold, abs]
  exact ⟨hmem,
    (compare_missing_dimension envW pC7 "one two three" "" none none dC7 hmem
      (by
        intro r hr
        unfold Pipeline.compare at hr
        dsimp only at hr
        rw [hstate, hscore_b] at hr
        simp [zeroReport] at hr)).1,
    (compare_missing_dimension envW pC7 "one two three" "" none none dC7 hmem
      (by
        intro r hr
        unfold Pipeline.compare at hr
        dsimp only at hr
        rw [hstate, hscore_b] at hr
        simp [zeroReport] at hr)).2.1⟩

/-- C10: for a pipeline whose auto-profile flag is set (constructed with
auto_profile=True and no explicit profile), a score call on non-blank
text whose detected content type is not "default" permanently installs
the detected profile's weights beneath the pre-existing overrides in the
pipeline state returned for all subsequent calls; the flag stays set and
the detection is recorded, and nothing restores the previous weight map. -/
theorem auto_profile_mutates_weights (env : DetectEnv) (p : Pipeline)
    (text : String) (meta : Option Meta)
    (hauto : p.autoProfile = true)
    (hblank : isBlank text = false)
    (hct : (detect_content_type env text meta).name ≠ "default") :
    (∀ k, (Pipeline.score env p text meta).1.weightOverrides k
        = (p.weightOverrides k).orElse
            (fun _ => profileWeights (detect_content_type env text meta).name k))
  ∧ (Pipeline.score env p text meta).1.autoProfile = true
  ∧ (Pipeline.score env p text meta).1.detected
      = some (detect_content_type env text meta) := by
  unfold Pipeline.score
  rw [if_neg (by simp [hblank])]
  dsimp only
  unfold resolvePipeline
  rw [if_pos hauto]
  unfold applyAutoProfile
  dsimp only
  rw [if_pos hct]
  exact ⟨fun k => rfl, hauto, rfl⟩

/-- On the four-word technical text, the detector classifies `envT` input
as "technical" with density 1*100/4 = 25 capped at 1. -/
theorem detect_envT_tech :
    detect_content_type envT "tech tech tech tech" none
      = { name := "technical", confidence := 1 } := by
  have hwc : wordCount "tech tech tech tech" = 4 := by decide
  have hefft : effDensity envT "tech tech tech tech" none Label.technical = 1 := by
    unfold effDensity urlBoostOf rawDensity
    rw [hwc]
    norm_num [envT, minQ]
  have heffn : effDensity envT "tech tech tech tech" none Label.news = 0 := by
    unfold effDensity urlBoostOf rawDensity
    rw [hwc]
    norm_num [envT, minQ]
  have heffo : effDensity envT "tech tech tech tech" none Label.opinion = 0 := by
    unfold effDensity urlBoostOf rawDensity
    rw [hwc]
    norm_num [envT, minQ]
  have hbest : bestLabel (effDensity envT "tech tech tech tech" none)
      = Label.technical := by
    unfold bestLabel
    simp only [List.foldl_cons, List.foldl_nil]
    norm_num [hefft, heffn, heffo]
  unfold detect_content_type
  rw [if_neg (by decide), if_neg (by rw [hwc]; decide)]
  dsimp only
  rw [hbest, hefft, if_neg (by norm_num)]
  rfl

/-- On the plain text with no signal hits, detection falls back to
"default". -/
theorem detect_envT_plain :
    detect_content_type envT "plain plain plain" none
      = { name := "default", confidence := 0 } := by
  have hwc : wordCount "plain plain plain" = 3 := by decide
  have hhit : envT.hits "plain plain plain" Label.technical = 0 := by decide
  have heff : ∀ l, effDensity envT "plain plain plain" none l = 0 := by
    intro l
    unfold effDensity urlBoostOf rawDensity
    rw [hwc]
    cases l
    · rw [hhit]
      norm_num [minQ]
    · norm_num [envT, minQ]
    · norm_num [envT, minQ]
  have hbest : bestLabel (effDensity envT "plain plain plain" none)
      = Label.technical := by
    unfold bestLabel
    simp only [List.foldl_cons, List.foldl_nil]
    norm_num [heff]
  unfold detect_content_type
  rw [if_neg (by decide), if_neg (by rw [hwc]; decide)]
  dsimp only
  rw [hbest, heff Label.technical, if_pos (by norm_num)]

theorem auto_profile_mutates_weights_witness :
    (pC10.autoProfile = true
      ∧ isBlank "tech tech tech tech" = false
      ∧ (detect_content_type envT "tech tech tech tech" none).name ≠ "default")
  ∧ ∀ k, (Pipeline.score envT pC10 "tech tech tech tech" none).1.weightOverrides k
      = (pC10.weightOverrides k).orElse
          (fun _ => profileWeights
            (detect_content_type envT "tech tech tech tech" none).name k) :=
  ⟨⟨rfl, by decide, by rw [detect_envT_tech]; decide⟩,
    (auto_profile_mutates_weights envT pC10 "tech tech tech tech" none rfl (by decide)
      (by rw [detect_envT_tech]; decide)).1⟩

/-- C2 counterexample: with auto-profile enabled, scoring a batch is not
numerically identical to scoring each item individually.  Scoring the
first item ("tech tech tech tech", detected "technical") permanently
installs the technical profile weights (substance 2.0, epistemic 0.5),
so the second item of the batch is aggregated under those weights
(overall 0.8), while scoring it individually on the same freshly
constructed pipeline uses the scorer defaults (substance 1.5, epistemic
1.0), giving overall 0.6. -/
theorem batch_matches_individual_counterexample :
    ((Pipeline.score_batch envT pC2
        [("a", "tech tech tech tech"), ("b", "plain plain plain")]
        (BatchMeta.shared none)).2.map (fun x => (x.1, x.2.overall_score))
      = [("a", 4/5), ("b", 4/5)])
  ∧ (Pipeline.score envT pC2 "plain plain plain" none).2.overall_score = 3/5
  ∧ (4/5 : ℚ) ≠ 3/5 := by
  have happly1 : applyAutoProfile envT pC2 "tech tech tech tech" none = pTechC2 := by
    unfold applyAutoProfile
    dsimp only
    rw [detect_envT_tech, if_pos (by decide)]
    rfl
  have happly2 : applyAutoProfile envT pTechC2 "plain plain plain" none = pTechC2b := by
    unfold applyAutoProfile
    dsimp only
    rw [detect_envT_plain, if_neg (by decide)]
    rfl
  have happly3 : applyAutoProfile envT pC2 "plain plain plain" none = pC2b := by
    unfold applyAutoProfile
    dsimp only
    rw [detect_envT_plain, if_neg (by decide)]
    rfl
  have hstate1 : (Pipeline.score envT pC2 "tech tech tech tech" none).1 = pTechC2 := by
    unfold Pipeline.score
    rw [if_neg (by decide)]
    dsimp only
    unfold resolvePipeline
    rw [if_pos (show pC2.autoProfile = true from rfl), happly1]
  have hrep1 : (Pipeline.score envT pC2 "tech tech tech tech" none).2.overall_score
      = 4/5 := by
    unfold Pipeline.score
    rw [if_neg (by decide)]
    dsimp only
    unfold resolvePipeline
    rw [if_pos (show pC2.autoProfile = true from rfl), happly1]
    have hw_sub : resolvedWeight pTechC2 subC2 = 2 := rfl
    have hw_epi : resolvedWeight pTechC2 epiC2 = 1/2 := rfl
    simp only [show pTechC2.scorers = [subC2, epiC2] from rfl, List.map_cons,
      List.map_nil, List.sum_cons, List.sum_nil, hw_sub, hw_epi]
    norm_num [subC2, epiC2]
  have hrep2 : (Pipeline.score envT pTechC2 "plain plain plain" none).2.overall_score
      = 4/5 := by
    unfold Pipeline.score
    rw [if_neg (by decide)]
    dsimp only
    unfold resolvePipeline
    rw [if_pos (show pTechC2.autoProfile = true from rfl), happly2]
    have hw_sub : resolvedWeight pTechC2b subC2 = 2 := rfl
    have hw_epi : resolvedWeight pTechC2b epiC2 = 1/2 := rfl
    simp only [show pTechC2b.scorers = [subC2, epiC2] from rfl, List.map_cons,
      List.map_nil, List.sum_cons, List.sum_nil, hw_sub, hw_epi]
    norm_num [subC2, epiC2]
  have hrep3 : (Pipeline.score envT pC2 "plain plain plain" none).2.overall_score
      = 3/5 := by
    unfold Pipeline.score
    rw [if_neg (by decide)]
    dsimp only
    unfold resolvePipeline
    rw [if_pos (show pC2.autoProfile = true from rfl), happly3]
    have hw_sub : resolvedWeight pC2b subC2 = 3/2 := rfl
    have hw_epi : resolvedWeight pC2b epiC2 = 1 := rfl
    simp only [show pC2b.scorers = [subC2, epiC2] from rfl, List.map_cons,
      List.map_nil, List.sum_cons, List.sum_nil, hw_sub, hw_epi]
    norm_num [subC2, epiC2]
  refine ⟨?_, hrep3, by norm_num⟩
  unfold Pipeline.score_batch
  rw [show ([("a", "tech tech tech tech"), ("b", "plain plain plain")]
      : List (String × String)).enum
    = [(0, ("a", "tech tech tech tech")), (1, ("b", "plain plain plain"))] from rfl]
  simp only [List.foldl_cons, List.foldl_nil, BatchMeta.at]
  rw [hstate1]
  simp only [List.nil_append, List.cons_append, List.append_nil, List.map_cons,
    List.map_nil]
  rw [hrep1, hrep2]

/-- C2 amended: for every pipeline whose auto-profile flag is off (so no
scoring call mutates the weight map), score_batch returns the labelled
reports in the original input order, and the report at each index equals
the report of an individual score call on that item's text and its
dispatched metadata (shared dict, per-item list entry, or none). -/
theorem batch_matches_individual (env : DetectEnv) (p : Pipeline)
    (texts : List (String × String)) (meta : BatchMeta)
    (h : p.autoProfile = false) :
    (Pipeline.score_batch env p texts meta).2
      = texts.enum.map
          (fun it => (it.2.1, (Pipeline.score env p it.2.2 (meta.at it.1)).2)) := by
  have key : ∀ (l : List (ℕ × String × String))
      (acc : List (String × QualityReport)),
      (l.foldl
        (fun acc it =>
          ((Pipeline.score env acc.1 it.2.2 (meta.at it.1)).1,
            acc.2 ++ [(it.2.1, (Pipeline.score env acc.1 it.2.2 (meta.at it.1)).2)]))
        (p, acc)).2
      = acc ++ l.map
          (fun it => (it.2.1, (Pipeline.score env p it.2.2 (meta.at it.1)).2)) := by
    intro l
    induction l with
    | nil =>
      intro acc
      simp
    | cons hd tl ih =>
      intro acc
      simp only [List.foldl_cons, List.map_cons]
      rw [score_state_of_not_auto env p hd.2.2 (meta.at hd.1) h]
      rw [ih]
      simp
  have := key texts.enum []
  unfold Pipeline.score_batch
  rw [this]
  simp

theorem batch_matches_individual_witness :
    pC2w.autoProfile = false
  ∧ (Pipeline.score_batch envT pC2w [("a", "one two"), ("b", "three four")]
        (BatchMeta.perItem [none])).2
      = [("a", (Pipeline.score envT pC2w "one two" none).2),
          ("b", (Pipeline.score envT pC2w "three four" none).2)] := by
  refine ⟨rfl, ?_⟩
  rw [batch_matches_individual envT pC2w [("a", "one two"), ("b", "three four")]
    (BatchMeta.perItem [none]) rfl]
  rfl

/-!
Analytic facts about the confidence estimator.
-/

theorem log_anchor_pos : 0 < Real.log 2000 - Real.log 50 := by
  have := Real.log_lt_log (show (0:ℝ) < 50 by norm_num) (show (50:ℝ) < 2000 by norm_num)
  linarith

/-- The base half-width never exceeds the short-text anchor 0.15. -/
theorem baseHw_le (w : ℕ) : baseHw w ≤ 0.15 := by
  unfold baseHw
  split_ifs with h1 h2
  · exact le_refl _
  · norm_num
  · dsimp only
    have hw50 : (50:ℝ) ≤ (w:ℝ) := by
      have : 50 ≤ w := by omega
      exact_mod_cast this
    have hnum : 0 ≤ Real.log w - Real.log 50 := by
      have := Real.log_le_log (show (0:ℝ) < 50 by norm_num) hw50
      linarith
    have ht : 0 ≤ (Real.log w - Real.log 50) / (Real.log 2000 - Real.log 50) :=
      div_nonneg hnum log_anchor_pos.le
    nlinarith

/-- The base half-width never drops below the long-text anchor 0.03. -/
theorem baseHw_ge (w : ℕ) : 0.03 ≤ baseHw w := by
  unfold baseHw
  split_ifs with h1 h2
  · norm_num
  · exact le_refl _
  · dsimp only
    have hwpos : (0:ℝ) < (w:ℝ) := by
      have : 0 < w := by omega
      exact_mod_cast this
    have hw2000 : (w:ℝ) ≤ 2000 := by
      have : w ≤ 2000 := by omega
      exact_mod_cast this
    have hnum : Real.log w - Real.log 50 ≤ Real.log 2000 - Real.log 50 := by
      have := Real.log_le_log hwpos hw2000
      linarith
    have ht : (Real.log w - Real.log 50) / (Real.log 2000 - Real.log 50) ≤ 1 :=
      (div_le_one log_anchor_pos).mpr hnum
    nlinarith

theorem baseHw_nonneg (w : ℕ) : 0 ≤ baseHw w :=
  le_trans (by norm_num) (baseHw_ge w)

/-- The base half-width is antitone in the word count. -/
theorem baseHw_antitone {a b : ℕ} (hab : a ≤ b) : baseHw b ≤ baseHw a := by
  by_cases ha1 : a ≤ 50
  · have : baseHw a = 0.15 := by
      unfold baseHw
      rw [if_pos ha1]
    rw [this]
    exact baseHw_le b
  · by_cases hb2 : 2000 ≤ b
    · have : baseHw b = 0.03 := by
        unfold baseHw
        rw [if_neg (by omega), if_pos hb2]
      rw [this]
      exact baseHw_ge a
    · have ha2 : ¬ 2000 ≤ a := by omega
      have hb1 : ¬ b ≤ 50 := by omega
      unfold baseHw
      rw [if_neg ha1, if_neg ha2, if_neg hb1, if_neg hb2]
      dsimp only
      have hapos : (0:ℝ) < (a:ℝ) := by
        have : 0 < a := by omega
        exact_mod_cast this
      have hcast : (a:ℝ) ≤ (b:ℝ) := by exact_mod_cast hab
      have hlog : Real.log a ≤ Real.log b := Real.log_le_log hapos hcast
      have ht : (Real.log a - Real.log 50) / (Real.log 2000 - Real.log 50)
          ≤ (Real.log b - Real.log 50) / (Real.log 2000 - Real.log 50) :=
        (div_le_div_right log_anchor_pos).mpr (by linarith)
      nlinarith

theorem signalsPer100_nonneg (w s : ℕ) : 0 ≤ signalsPer100 w s := by
  unfold signalsPer100
  split_ifs with h
  · positivity
  · exact le_refl _

/-- Signal density is monotone in the signal count. -/
theorem signalsPer100_mono (w : ℕ) {s s' : ℕ} (h : s ≤ s') :
    signalsPer100 w s ≤ signalsPer100 w s' := by
  unfold signalsPer100
  split_ifs with hw
  · have hwpos : (0:ℝ) < (w:ℝ) := by exact_mod_cast hw
    have : (s:ℝ) ≤ (s':ℝ) := by exact_mod_cast h
    exact (div_le_div_right hwpos).mpr (by nlinarith)
  · exact le_refl _

theorem densityFactor_nonneg {d : ℝ} (hd : 0 ≤ d) : 0 ≤ densityFactor d := by
  unfold densityFactor
  split_ifs with h
  · norm_num
  · push_neg at h
    linarith

/-- The density factor is antitone in the density. -/
theorem densityFactor_antitone {d d' : ℝ} (h : d ≤ d') :
    densityFactor d' ≤ densityFactor d := by
  unfold densityFactor
  split_ifs with h1 h2 h2
  · exact le_refl _
  · push_neg at h2
    linarith
  · exact absurd (le_trans h2 h) h1
  · linarith

theorem typeFactor_nonneg (t : ℕ) : 0 ≤ typeFactor t :=
  le_trans (by norm_num) (le_max_left _ _)

/-- The type factor is antitone in the number of signal types. -/
theorem typeFactor_antitone {t t' : ℕ} (h : t ≤ t') :
    typeFactor t' ≤ typeFactor t := by
  unfold typeFactor
  apply max_le_max (le_refl _)
  have : (t:ℝ) ≤ (t':ℝ) := by exact_mod_cast h
  nlinarith

theorem halfWidth_nonneg (w s t : ℕ) : 0 ≤ halfWidth w s t :=
  mul_nonneg
    (mul_nonneg (baseHw_nonneg w) (densityFactor_nonneg (signalsPer100_nonneg w s)))
    (typeFactor_nonneg t)

theorem clampR_mono {a b : ℝ} (h : a ≤ b) : clampR a ≤ clampR b :=
  max_le_max (le_refl 0) (min_le_min (le_refl 1) h)

/-- A smaller half-width never yields a wider clamped interval. -/
theorem width_mono_of_halfWidth (score : ℝ) {h₁ h₂ : ℝ} (hle : h₂ ≤ h₁) :
    clampR (score + h₂) - clampR (score - h₂)
      ≤ clampR (score + h₁) - clampR (score - h₁) := by
  have hupper : clampR (score + h₂) ≤ clampR (score + h₁) := clampR_mono (by linarith)
  have hlower : clampR (score - h₁) ≤ clampR (score - h₂) := clampR_mono (by linarith)
  linarith

/-- C8: the confidence interval computed for an already-clamped score (as
every caller in the engine passes its clamped point estimate) satisfies
0 ≤ ci_lower ≤ score ≤ ci_upper ≤ 1. -/
theorem ci_bounds_sound (score : ℝ) (w s t : ℕ)
    (h0 : 0 ≤ score) (h1 : score ≤ 1) :
    0 ≤ (compute_confidence_interval score w s t).1
  ∧ (compute_confidence_interval score w s t).1 ≤ score
  ∧ score ≤ (compute_confidence_interval score w s t).2
  ∧ (compute_confidence_interval score w s t).2 ≤ 1 := by
  unfold compute_confidence_interval clampR
  dsimp only
  have hnn : 0 ≤ halfWidth w s t := halfWidth_nonneg w s t
  refine ⟨le_max_left _ _, ?_, ?_, ?_⟩
  · exact max_le h0 ((min_le_right _ _).trans (by linarith))
  · exact le_max_of_le_right (le_min h1 (by linarith))
  · exact max_le (by norm_num) (min_le_left _ _)

theorem ci_bounds_sound_witness :
    ((0:ℝ) ≤ 1/2 ∧ (1/2 : ℝ) ≤ 1)
  ∧ (0 ≤ (compute_confidence_interval (1/2) 20 1 1).1
      ∧ (compute_confidence_interval (1/2) 20 1 1).1 ≤ 1/2
      ∧ (1/2 : ℝ) ≤ (compute_confidence_interval (1/2) 20 1 1).2
      ∧ (compute_confidence_interval (1/2) 20 1 1).2 ≤ 1) :=
  ⟨⟨by norm_num, by norm_num⟩,
    ci_bounds_sound (1/2) 20 1 1 (by norm_num) (by norm_num)⟩

/-- C3 amended: the interval is monotone in this sense — increasing
word_count while holding the signal density (signals per 100 words)
constant never widens it, increasing signal_count never widens it, and
increasing signal_types never widens it.  (Increasing word_count with
signal_count held fixed can widen it, because the density drops.) -/
theorem ci_monotone_amended (score : ℝ) :
    (∀ w w' s s' t, w ≤ w' →
        signalsPer100 w s = signalsPer100 w' s' →
        intervalWidth (compute_confidence_interval score w' s' t)
          ≤ intervalWidth (compute_confidence_interval score w s t))
  ∧ (∀ w s s' t, s ≤ s' →
        intervalWidth (compute_confidence_interval score w s' t)
          ≤ intervalWidth (compute_confidence_interval score w s t))
  ∧ (∀ w s t t', t ≤ t' →
        intervalWidth (compute_confidence_interval score w s t')
          ≤ intervalWidth (compute_confidence_interval score w s t)) := by
  have hwidth : ∀ {w s t w' s' t'},
      halfWidth w' s' t' ≤ halfWidth w s t →
      intervalWidth (compute_confidence_interval score w' s' t')
        ≤ intervalWidth (compute_confidence_interval score w s t) := by
    intro w s t w' s' t' hle
    unfold compute_confidence_interval intervalWidth
    dsimp only
    exact width_mono_of_halfWidth score hle
  refine ⟨?_, ?_, ?_⟩
  · intro w w' s s' t hw hd
    apply hwidth
    unfold halfWidth
    rw [← hd]
    apply mul_le_mul_of_nonneg_right ?_ (typeFactor_nonneg t)
    exact mul_le_mul_of_nonneg_right (baseHw_antitone hw)
      (densityFactor_nonneg (signalsPer100_nonneg w s))
  · intro w s s' t hs
    apply hwidth
    unfold halfWidth
    apply mul_le_mul_of_nonneg_right ?_ (typeFactor_nonneg t)
    exact mul_le_mul_of_nonneg_left
      (densityFactor_antitone (signalsPer100_mono w hs)) (baseHw_nonneg w)
  · intro w s t t' ht
    apply hwidth
    unfold halfWidth
    exact mul_le_mul_of_nonneg_left (typeFactor_antitone ht)
      (mul_nonneg (baseHw_nonneg w)
        (densityFactor_nonneg (signalsPer100_nonneg w s)))

theorem ci_monotone_amended_witness :
    (100 ≤ 200 ∧ signalsPer100 100 5 = signalsPer100 200 10)
  ∧ intervalWidth (compute_confidence_interval (1/2) 200 10 1)
      ≤ intervalWidth (compute_confidence_interval (1/2) 100 5 1) := by
  have hde : signalsPer100 100 5 = signalsPer100 200 10 := by
    unfold signalsPer100
    rw [if_pos (by norm_num), if_pos (by norm_num)]
    norm_num
  exact ⟨⟨by norm_num, hde⟩,
    (ci_monotone_amended (1/2)).1 100 200 5 10 1 (by norm_num) hde⟩

/-- C3 counterexample: increasing word_count alone (signal_count fixed at 1,
score 0.5, one signal type) from 20 to 40 widens the returned interval:
at 20 words the density is 5 per 100 words (factor 1, interval
(0.35, 0.65), width 0.3) while at 40 words the density is 2.5 (factor
1.5, interval (0.275, 0.725), width 0.45). -/
theorem ci_monotone_counterexample :
    intervalWidth (compute_confidence_interval (1/2) 20 1 1)
      < intervalWidth (compute_confidence_interval (1/2) 40 1 1)
  ∧ compute_confidence_interval (1/2) 20 1 1 = (0.35, 0.65)
  ∧ compute_confidence_interval (1/2) 40 1 1 = (0.275, 0.725) := by
  have hbase20 : baseHw 20 = 0.15 := by
    unfold baseHw
    rw [if_pos (by norm_num)]
  have hbase40 : baseHw 40 = 0.15 := by
    unfold baseHw
    rw [if_pos (by norm_num)]
  have hsig20 : signalsPer100 20 1 = 5 := by
    unfold signalsPer100
    rw [if_pos (by norm_num)]
    norm_num
  have hsig40 : signalsPer100 40 1 = 5/2 := by
    unfold signalsPer100
    rw [if_pos (by norm_num)]
    norm_num
  have hdf20 : densityFactor 5 = 1 := by
    unfold densityFactor
    rw [if_pos (by norm_num)]
  have hdf40 : densityFactor (5/2) = 3/2 := by
    unfold densityFactor
    rw [if_neg (by norm_num)]
    norm_num
  have htf : typeFactor 1 = 1 := by
    unfold typeFactor
    rw [max_eq_right (by norm_num)]
    norm_num
  have hhw20 : halfWidth 20 1 1 = 0.15 := by
    unfold halfWidth
    rw [hbase20, hsig20, hdf20, htf]
    norm_num
  have hhw40 : halfWidth 40 1 1 = 0.225 := by
    unfold halfWidth
    rw [hbase40, hsig40, hdf40, htf]
    norm_num
  have hcci20 : compute_confidence_interval (1/2) 20 1 1 = (0.35, 0.65) := by
    unfold compute_confidence_interval clampR
    rw [hhw20]
    dsimp only
    refine Prod.ext ?_ ?_
    · rw [min_eq_right (by norm_num), max_eq_right (by norm_num)]
      norm_num
    · rw [min_eq_right (by norm_num), max_eq_right (by norm_num)]
      norm_num
  have hcci40 : compute_confidence_interval (1/2) 40 1 1 = (0.275, 0.725) := by
    unfold compute_confidence_interval clampR
    rw [hhw40]
    dsimp only
    refine Prod.ext ?_ ?_
    · rw [min_eq_right (by norm_num), max_eq_right (by norm_num)]
      norm_num
    · rw [min_eq_right (by norm_num), max_eq_right (by norm_num)]
      norm_num
  refine ⟨?_, hcci20, hcci40⟩
  rw [hcci20, hcci40]
  unfold intervalWidth
  norm_num

end Distill
